import Mathlib

/-!
Shallow embedding of the `reference-app` services (backend, frontend, trial)
of the Udacity-observability repository, together with proofs about the
request-handling pipeline: routing, the `/star` insert-then-read handler,
the fixed-status endpoints, and the `/trace` batch job-processing loop.

The Python sources embedded here are
  `src/reference-app/backend/app.py`,
  `src/reference-app/frontend/app.py`,
  `src/reference-app/trial/app.py`.
Flask behaviour that the handlers rely on is modelled explicitly: an
exception that escapes a handler (for example a Python `KeyError` from
`request.json["name"]`) produces a 500 Internal Server Error response.
-/

set_option autoImplicit false

/-- JSON values, as delivered by `request.json` / produced by `jsonify`.
Numbers are carried as rationals: the handlers only pass them through,
never compute with them, so the carrier only has to be exact. -/
inductive Json where
  | null
  | boolVal (b : Bool)
  | num (q : Rat)
  | str (s : String)
  | arr (elems : List Json)
  | obj (fields : List (String × Json))

/-- Key lookup in a JSON value: `j[key]` in Python. Returns `none` when the
key is absent or the value is not an object — in the Python source both
raise (`KeyError` / `TypeError`), which the handlers surface identically. -/
def jsonGet (j : Json) (key : String) : Option Json :=
  match j with
  | .obj fields => (fields.find? (fun kv => kv.fst == key)).map Prod.snd
  | _ => none

/-- The single stored entity: a star record with `name` and `distance`
taken verbatim from the request JSON (the handler does not validate their
types, only their presence). -/
structure StarRecord where
  name : Json
  distance : Json

/-- The narrow store interface used by `add_star`: `star.insert` returning
the new id, and `star.find_one` by `_id` (`mongo.db.stars` in the source). -/
structure StoreOps (σ : Type) where
  insert : σ → StarRecord → Nat × σ
  find_one : σ → Nat → Option StarRecord

/-- In-memory model of the external Mongo collection: id/record pairs plus
the next fresh id. The `fresh` field records that stored ids are always
smaller than `nextId`, which is what makes the store's read-after-write
consistency provable. -/
structure StarStore where
  recs : List (Nat × StarRecord)
  nextId : Nat
  fresh : ∀ p ∈ recs, p.fst < nextId

def StarStore.insert (db : StarStore) (r : StarRecord) : Nat × StarStore :=
  (db.nextId,
   { recs := db.recs ++ [(db.nextId, r)]
     nextId := db.nextId + 1
     fresh := by
       intro p hp
       rcases List.mem_append.mp hp with h | h
       · exact Nat.lt_succ_of_lt (db.fresh p h)
       · rcases List.mem_singleton.mp h with rfl
         exact Nat.lt_succ_self _ })

def StarStore.find_one (db : StarStore) (sid : Nat) : Option StarRecord :=
  (db.recs.find? (fun p => p.fst == sid)).map Prod.snd

/-- The store behaviour `add_star` runs against in the deployed service. -/
def mongoOps : StoreOps StarStore :=
  { insert := StarStore.insert, find_one := StarStore.find_one }

def emptyStore : StarStore :=
  { recs := [], nextId := 0, fresh := by intro p hp; cases hp }

/-- Response bodies: plain text (string returns and Flask error pages) or
JSON (`jsonify`). -/
inductive RespBody where
  | text (s : String)
  | json (j : Json)

structure Response where
  status : Nat
  body : RespBody

/-- Flask's response to an exception that escapes a route handler. -/
def internalServerError : Response :=
  { status := 500, body := .text "Internal Server Error" }

def notFound : Response :=
  { status := 404, body := .text "Not Found" }

def methodNotAllowed : Response :=
  { status := 405, body := .text "Method Not Allowed" }

/-- An inbound HTTP request: method, path, headers, parsed JSON body. -/
structure Request where
  method : String
  path : String
  headers : List (String × String)
  body : Json

/-- `add_star` (backend `app.py`, lines 85–96), generic over the store it
talks to. Reads `request.json["name"]` then `request.json["distance"]`
(a missing key raises and yields Flask's 500 before any store call),
inserts the record, reads it back by the returned id, and builds the
response from the record `find_one` returned. `find_one` yielding nothing
makes `new_star["name"]` raise, again yielding the 500. -/
def add_star {σ : Type} (ops : StoreOps σ) (db : σ) (reqJson : Json) : Response × σ :=
  match jsonGet reqJson "name" with
  | none => (internalServerError, db)
  | some name =>
    match jsonGet reqJson "distance" with
    | none => (internalServerError, db)
    | some distance =>
      let ins := ops.insert db { name := name, distance := distance }
      match ops.find_one ins.snd ins.fst with
      | none => (internalServerError, ins.snd)
      | some new_star =>
        ({ status := 200
           body := .json (.obj [("result",
             .obj [("name", new_star.name), ("distance", new_star.distance)])]) },
         ins.snd)

namespace Backend

/-- `homepage` (backend `app.py`, line 73). -/
def homepage : Response :=
  { status := 200, body := .text "Hello World" }

/-- `my_api` (backend `app.py`, lines 78–82): the span carries no data
effect, the body is `jsonify(response="something")`. -/
def my_api : Response :=
  { status := 200, body := .json (.obj [("response", .str "something")]) }

/-- `client_success_page` (backend `app.py`, lines 98–100). -/
def client_success_page : Response :=
  { status := 200, body := .text "Planned 200 response" }

/-- `client_error_page` (backend `app.py`, lines 102–104). -/
def client_error_page : Response :=
  { status := 400, body := .text "Planned 400 error" }

/-- `server_error_page` (backend `app.py`, lines 106–108). -/
def server_error_page : Response :=
  { status := 500, body := .text "Planned 500 error" }

/-- The backend service's router: the `@app.route` table of backend
`app.py`. Only `/star` accepts POST; all other registered routes are
GET-only, and an unregistered path is a 404. -/
def route (db : StarStore) (req : Request) : Response × StarStore :=
  if req.path = "/" then
    if req.method = "GET" then (homepage, db) else (methodNotAllowed, db)
  else if req.path = "/api" then
    if req.method = "GET" then (my_api, db) else (methodNotAllowed, db)
  else if req.path = "/star" then
    if req.method = "POST" then add_star mongoOps db req.body
    else (methodNotAllowed, db)
  else if req.path = "/success-response" then
    if req.method = "GET" then (client_success_page, db) else (methodNotAllowed, db)
  else if req.path = "/client-error" then
    if req.method = "GET" then (client_error_page, db) else (methodNotAllowed, db)
  else if req.path = "/server-error" then
    if req.method = "GET" then (server_error_page, db) else (methodNotAllowed, db)
  else (notFound, db)

end Backend

namespace Frontend

/-- Model of the external `render_template` collaborator: the handler
returns the rendered template body verbatim; its content is outside this
system. -/
def render_template (templateName : String) : String :=
  templateName

/-- `homepage` (frontend `app.py`, lines 61–64). -/
def homepage : Response :=
  { status := 200, body := .text (render_template "main.html") }

/-- `client_success_page` (frontend `app.py`, lines 66–68). -/
def client_success_page : Response :=
  { status := 200, body := .text "Planned 200 response" }

/-- `client_error_page` (frontend `app.py`, lines 70–72). -/
def client_error_page : Response :=
  { status := 400, body := .text "Planned 400 error" }

/-- `server_error_page` (frontend `app.py`, lines 74–76). -/
def server_error_page : Response :=
  { status := 500, body := .text "Planned 500 error" }

/-- The frontend service's router (frontend `app.py`); it performs no
store operation at all. -/
def route (req : Request) : Response :=
  if req.path = "/" then
    if req.method = "GET" then homepage else methodNotAllowed
  else if req.path = "/success-response" then
    if req.method = "GET" then client_success_page else methodNotAllowed
  else if req.path = "/client-error" then
    if req.method = "GET" then client_error_page else methodNotAllowed
  else if req.path = "/server-error" then
    if req.method = "GET" then server_error_page else methodNotAllowed
  else notFound

end Frontend

namespace Trial

/-- Consume characters up to and including the first `>`; `none` when the
list holds no `>`. Helper for the regex `<[^>]+>` of `remove_tags`. -/
def dropThroughGt : List Char → Option (List Char)
  | [] => none
  | c :: cs => if c = '>' then some cs else dropThroughGt cs

/-- One left-to-right pass of `re.sub` with pattern `<[^>]+>` and
replacement `""`: at a `<` followed by at least one non-`>` character and
then a `>`, the whole match is dropped; otherwise the character is kept.
`fuel` bounds the recursion; `fuel = cs.length` always suffices because
every step consumes at least one character. -/
def removeTagsFuel : Nat → List Char → List Char
  | 0, cs => cs
  | _ + 1, [] => []
  | fuel + 1, c :: rest =>
    if c = '<' then
      match rest with
      | [] => ['<']
      | c2 :: _ =>
        if c2 = '>' then '<' :: removeTagsFuel fuel rest
        else
          match dropThroughGt rest with
          | some rem => removeTagsFuel fuel rem
          | none => '<' :: removeTagsFuel fuel rest
    else c :: removeTagsFuel fuel rest

/-- `remove_tags` (trial `app.py`, lines 75–77): strip HTML tags with the
regex `<[^>]+>`. -/
def remove_tags (text : String) : String :=
  String.mk (removeTagsFuel text.data.length text.data)

/-- The body of the `try` block of the `/trace` loop (trial `app.py`,
lines 90–100): extract the nine fields of one upstream job item, stripping
tags from the description. `none` models the exception path caught at
line 103: a missing key raises `KeyError`, a non-string description makes
`tag.sub` raise `TypeError`; either way the item is logged and skipped. -/
def extractJob (item : Json) : Option Json :=
  (jsonGet item "description").bind fun descVal =>
  (match descVal with
    | .str s => some s
    | _ => none).bind fun descStr =>
  (jsonGet item "company").bind fun company =>
  (jsonGet item "company_url").bind fun company_url =>
  (jsonGet item "created_at").bind fun created_at =>
  (jsonGet item "how_to_apply").bind fun how_to_apply =>
  (jsonGet item "location").bind fun location =>
  (jsonGet item "title").bind fun title =>
  (jsonGet item "type").bind fun jobType =>
  (jsonGet item "url").bind fun url =>
  some (.obj [("description", .str (remove_tags descStr)),
              ("company", company),
              ("company_url", company_url),
              ("created_at", created_at),
              ("how_to_apply", how_to_apply),
              ("location", location),
              ("title", title),
              ("type", jobType),
              ("url", url)])

/-- An exception escaping the `/trace` handler (uncaught by any `try`). -/
inductive TraceAbort where
  | keyError (key : String)

/-- The `for result in res.json()` loop of `/trace` (trial `app.py`,
lines 85–106). Before the `try` block, line 88 interpolates
`result['company']` into a log message: an item without a `company` key
raises there, outside the `try`, and the whole request aborts. Inside the
`try`, a failing extraction is caught: the error is logged, the span tags
are set, and the loop continues without appending. -/
def traceLoop (acc : List Json) : List Json → Except TraceAbort (List Json)
  | [] => .ok acc
  | item :: rest =>
    match jsonGet item "company" with
    | none => .error (.keyError "company")
    | some _ =>
      match extractJob item with
      | some jobs => traceLoop (acc ++ [jobs]) rest
      | none => traceLoop acc rest

/-- `trace` (trial `app.py`, lines 73–107). Its input is the outcome of
the upstream fetch `requests.get(...).json()`: either the decoded job
listing or a raised exception. A raised fetch is not caught anywhere in
the handler, so Flask turns it into the 500 response; likewise for an
abort escaping the loop. On success the accumulated list is returned as
`jsonify(jobs_info)`. -/
def trace_handler (upstream : Except Unit (List Json)) : Response :=
  match upstream with
  | .error _ => internalServerError
  | .ok items =>
    match traceLoop [] items with
    | .error _ => internalServerError
    | .ok jobs_info => { status := 200, body := .json (.arr jobs_info) }

/-- `homepage` (trial `app.py`, lines 69–71). -/
def homepage : Response :=
  { status := 200, body := .text (Frontend.render_template "main.html") }

/-- `client_success_page` (trial `app.py`, lines 109–111). -/
def client_success_page : Response :=
  { status := 200, body := .text "Planned 200 response" }

/-- `client_error_page` (trial `app.py`, lines 113–115). -/
def client_error_page : Response :=
  { status := 400, body := .text "Planned 400 error" }

/-- `server_error_page` (trial `app.py`, lines 117–119). -/
def server_error_page : Response :=
  { status := 500, body := .text "Planned 500 error" }

/-- The trial service's router (trial `app.py`); `upstream` is the
environment's answer to the job-listing fetch performed by `/trace`. -/
def route (upstream : Except Unit (List Json)) (req : Request) : Response :=
  if req.path = "/" then
    if req.method = "GET" then homepage else methodNotAllowed
  else if req.path = "/trace" then
    if req.method = "GET" then trace_handler upstream else methodNotAllowed
  else if req.path = "/success-response" then
    if req.method = "GET" then client_success_page else methodNotAllowed
  else if req.path = "/client-error" then
    if req.method = "GET" then client_error_page else methodNotAllowed
  else if req.path = "/server-error" then
    if req.method = "GET" then server_error_page else methodNotAllowed
  else notFound

/-- An item has the `company` key, so line 88's log interpolation cannot
raise on it. -/
def hasCompanyB (item : Json) : Bool :=
  (jsonGet item "company").isSome

/-- An item the loop processes successfully end to end. -/
def validItem (item : Json) : Bool :=
  (extractJob item).isSome

/-- A produced job object carries all nine expected fields. -/
def jobComplete (j : Json) : Bool :=
  (jsonGet j "description").isSome && (jsonGet j "company").isSome &&
  (jsonGet j "company_url").isSome && (jsonGet j "created_at").isSome &&
  (jsonGet j "how_to_apply").isSome && (jsonGet j "location").isSome &&
  (jsonGet j "title").isSome && (jsonGet j "type").isSome &&
  (jsonGet j "url").isSome

end Trial

/-- A recorded metric sample: metric name plus label set. -/
structure MetricSample where
  metric : String
  labels : List (String × String)

/-- A completed tracing span: operation name plus tag set. -/
structure SpanRec where
  name : String
  tags : List (String × String)

/-- Modelled from the spec: the request-count middleware and the root-span
middleware are installed by third-party libraries — `PrometheusMetrics(app)`
(backend `app.py` line 22) and `FlaskInstrumentor().instrument_app(app)`
(line 36) — whose code is not part of this repository's sources; only their
declarations and configuration appear in `app.py`. Per the spec (§2 control
flow and §4.1 side effects), every handler invocation records exactly one
request-count sample keyed by the route/endpoint and exactly one root span
that is closed with the final status code among its tags. -/
def Backend.instrumentedRoute (db : StarStore) (req : Request) :
    Response × StarStore × List MetricSample × List SpanRec :=
  let out := Backend.route db req
  (out.fst, out.snd,
   [{ metric := "by_endpoint_counter", labels := [("endpoint", req.path)] }],
   [{ name := req.path,
      tags := [("http.status_code", toString out.fst.status)] }])

/-! ## Store lemmas -/

/-- `find?` skips over a block in which the predicate never holds. -/
theorem find?_append_all_neg {α : Type} (p : α → Bool) :
    ∀ (l₁ l₂ : List α), (∀ x ∈ l₁, p x = false) → (l₁ ++ l₂).find? p = l₂.find? p
  | [], _, _ => rfl
  | a :: l₁, l₂, h => by
    have ha : p a = false := h a (List.mem_cons_self a l₁)
    simp only [List.cons_append, List.find?, ha]
    exact find?_append_all_neg p l₁ l₂ fun x hx => h x (List.mem_cons_of_mem a hx)

/-- Read-after-write consistency of the store model: reading back the id
just returned by `insert` yields exactly the inserted record. -/
theorem StarStore.find_one_insert (db : StarStore) (r : StarRecord) :
    (db.insert r).snd.find_one (db.insert r).fst = some r := by
  unfold StarStore.insert StarStore.find_one
  simp only
  rw [find?_append_all_neg]
  · simp [List.find?]
  · intro x hx
    have hlt := db.fresh x hx
    simp only [beq_eq_false_iff_ne]
    exact Nat.ne_of_lt hlt

/-! ## Claims about the backend service -/

/-- Claim C1: for every valid JSON payload carrying both a `name` and a
`distance` field, POST `/star` answers 200 with body
`result.name`/`result.distance` equal to the input values exactly —
the insert-then-read round trip through the store returns what was
written. -/
theorem star_roundtrip (db : StarStore) (req : Request) (n d : Json)
    (hpath : req.path = "/star") (hmethod : req.method = "POST")
    (hn : jsonGet req.body "name" = some n)
    (hd : jsonGet req.body "distance" = some d) :
    (Backend.route db req).fst =
      { status := 200
        body := .json (.obj [("result", .obj [("name", n), ("distance", d)])]) } := by
  have hfind := StarStore.find_one_insert db { name := n, distance := d }
  simp [Backend.route, hpath, hmethod, add_star, hn, hd, mongoOps, hfind]

def siriusReq : Request :=
  { method := "POST", path := "/star", headers := []
    body := .obj [("name", .str "Sirius"), ("distance", .num (8.6 : Rat))] }

theorem star_roundtrip_witness :
    (Backend.route emptyStore siriusReq).fst =
      { status := 200
        body := .json (.obj [("result",
          .obj [("name", .str "Sirius"), ("distance", .num (8.6 : Rat))])]) } :=
  star_roundtrip emptyStore siriusReq (.str "Sirius") (.num (8.6 : Rat)) rfl rfl rfl rfl

/-- Claim C5: GET `/api` answers 200 with JSON body holding the fixed
placeholder value under the key `response`, and leaves the store
untouched (the handler performs no store operation at all). -/
theorem my_api_contract (db : StarStore) (req : Request)
    (hpath : req.path = "/api") (hmethod : req.method = "GET") :
    Backend.route db req =
      ({ status := 200, body := .json (.obj [("response", .str "something")]) }, db) := by
  simp [Backend.route, hpath, hmethod, Backend.my_api]

theorem my_api_contract_witness :
    Backend.route emptyStore { method := "GET", path := "/api", headers := [], body := .null } =
      ({ status := 200, body := .json (.obj [("response", .str "something")]) }, emptyStore) :=
  my_api_contract emptyStore _ rfl rfl

/-- Claim C9: the body of a successful POST `/star` response is built from
the record `find_one` read back at the id `insert` returned — not from the
raw request payload. Whatever record the store hands back is what the
response carries. -/
theorem add_star_reflects_readback {σ : Type} (ops : StoreOps σ) (db : σ)
    (body n d : Json) (r : StarRecord)
    (hn : jsonGet body "name" = some n) (hd : jsonGet body "distance" = some d)
    (hr : ops.find_one (ops.insert db { name := n, distance := d }).snd
            (ops.insert db { name := n, distance := d }).fst = some r) :
    (add_star ops db body).fst =
      { status := 200
        body := .json (.obj [("result",
          .obj [("name", r.name), ("distance", r.distance)])]) } := by
  simp [add_star, hn, hd, hr]

/-- A store whose read-back disagrees with what was written: used to
exhibit that the response tracks the read-back, not the payload. -/
def lyingOps : StoreOps Unit :=
  { insert := fun _ _ => (0, ())
    find_one := fun _ _ => some { name := .str "other", distance := .num (1 : Rat) } }

theorem add_star_reflects_readback_witness :
    (add_star lyingOps () (.obj [("name", .str "Sirius"), ("distance", .num (1 : Rat))])).fst =
      { status := 200
        body := .json (.obj [("result",
          .obj [("name", .str "other"), ("distance", .num (1 : Rat))])]) } :=
  add_star_reflects_readback lyingOps () _ (.str "Sirius") (.num (1 : Rat))
    { name := .str "other", distance := .num (1 : Rat) } rfl rfl rfl

/-- A POST `/star` request whose JSON body lacks the `name` field. -/
def missingNameReq : Request :=
  { method := "POST", path := "/star", headers := []
    body := .obj [("distance", .num (8.6 : Rat))] }

/-- A POST `/star` request whose JSON body lacks the `distance` field. -/
def missingDistanceReq : Request :=
  { method := "POST", path := "/star", headers := []
    body := .obj [("name", .str "Sirius")] }

/-- Claim C2 (divergence witness): POST `/star` with a body missing `name`,
or missing `distance`, makes the handler raise an uncaught `KeyError`
before any store call, so the caller sees Flask's 500 — not the 4xx the
spec requires — while the store indeed receives zero writes. -/
theorem star_missing_field_500_no_write :
    (Backend.route emptyStore missingNameReq).fst.status = 500 ∧
    (Backend.route emptyStore missingNameReq).snd.recs = [] ∧
    (Backend.route emptyStore missingDistanceReq).fst.status = 500 ∧
    (Backend.route emptyStore missingDistanceReq).snd.recs = [] :=
  ⟨rfl, rfl, rfl, rfl⟩

/-- Whatever `add_star` does against the Mongo model, the stored records
only ever grow by at most the one inserted entry, appended at the end. -/
theorem add_star_recs_extends (db : StarStore) (body : Json) :
    ∃ extra : List (Nat × StarRecord),
      (add_star mongoOps db body).snd.recs = db.recs ++ extra ∧ extra.length ≤ 1 := by
  unfold add_star
  split
  · exact ⟨[], by simp, by simp⟩
  · rename_i n hn
    split
    · exact ⟨[], by simp, by simp⟩
    · rename_i d hd
      refine ⟨[(db.nextId, { name := n, distance := d })], ?_, by simp⟩
      show (match mongoOps.find_one (mongoOps.insert db { name := n, distance := d }).snd
              (mongoOps.insert db { name := n, distance := d }).fst with
            | none => (internalServerError, (mongoOps.insert db { name := n, distance := d }).snd)
            | some new_star =>
              ({ status := 200
                 body := .json (.obj [("result",
                   .obj [("name", new_star.name), ("distance", new_star.distance)])]) },
               (mongoOps.insert db { name := n, distance := d }).snd)).snd.recs =
          db.recs ++ [(db.nextId, { name := n, distance := d })]
      split <;> simp [mongoOps, StarStore.insert]

/-- Claim C8: no handler of the backend service ever updates or deletes a
stored record. Every request leaves the store's previous contents as a
prefix, extends it by at most one entry, and can only extend it at all
when it is a POST to `/star`. -/
theorem backend_frame (db : StarStore) (req : Request) :
    ∃ extra : List (Nat × StarRecord),
      (Backend.route db req).snd.recs = db.recs ++ extra ∧
      extra.length ≤ 1 ∧
      (extra ≠ [] → req.path = "/star" ∧ req.method = "POST") := by
  by_cases hstar : req.path = "/star" ∧ req.method = "POST"
  · obtain ⟨hp, hm⟩ := hstar
    obtain ⟨extra, hrecs, hlen⟩ := add_star_recs_extends db req.body
    refine ⟨extra, ?_, hlen, fun _ => ⟨hp, hm⟩⟩
    have hroute : Backend.route db req = add_star mongoOps db req.body := by
      simp [Backend.route, hp, hm]
    rw [hroute]
    exact hrecs
  · refine ⟨[], ?_, by simp, by simp⟩
    unfold Backend.route
    split_ifs <;> simp_all

theorem backend_frame_witness :
    ∃ extra : List (Nat × StarRecord),
      (Backend.route emptyStore siriusReq).snd.recs = emptyStore.recs ++ extra ∧
      extra.length ≤ 1 ∧
      (extra ≠ [] → siriusReq.path = "/star" ∧ siriusReq.method = "POST") :=
  backend_frame emptyStore siriusReq

/-! ## Claims about the fixed-status endpoints and the middleware -/

/-- Claim C4: in each service that registers them, GET `/success-response`
answers 200 with body "Planned 200 response", GET `/client-error` answers
400 with body "Planned 400 error", and GET `/server-error` answers 500
with body "Planned 500 error" — independent of request body and headers,
and without touching the store. -/
theorem fixed_status_endpoints (db : StarStore) (upstream : Except Unit (List Json))
    (req : Request) (hmethod : req.method = "GET") :
    (req.path = "/success-response" →
      Backend.route db req = ({ status := 200, body := .text "Planned 200 response" }, db) ∧
      Frontend.route req = { status := 200, body := .text "Planned 200 response" } ∧
      Trial.route upstream req = { status := 200, body := .text "Planned 200 response" }) ∧
    (req.path = "/client-error" →
      Backend.route db req = ({ status := 400, body := .text "Planned 400 error" }, db) ∧
      Frontend.route req = { status := 400, body := .text "Planned 400 error" } ∧
      Trial.route upstream req = { status := 400, body := .text "Planned 400 error" }) ∧
    (req.path = "/server-error" →
      Backend.route db req = ({ status := 500, body := .text "Planned 500 error" }, db) ∧
      Frontend.route req = { status := 500, body := .text "Planned 500 error" } ∧
      Trial.route upstream req = { status := 500, body := .text "Planned 500 error" }) := by
  refine ⟨fun hp => ?_, fun hp => ?_, fun hp => ?_⟩ <;>
    simp [Backend.route, Frontend.route, Trial.route, hp, hmethod,
      Backend.client_success_page, Backend.client_error_page, Backend.server_error_page,
      Frontend.client_success_page, Frontend.client_error_page, Frontend.server_error_page,
      Trial.client_success_page, Trial.client_error_page, Trial.server_error_page]

theorem fixed_status_endpoints_witness :
    Backend.route emptyStore { method := "GET", path := "/success-response", headers := [], body := .null } =
      ({ status := 200, body := .text "Planned 200 response" }, emptyStore) ∧
    Frontend.route { method := "GET", path := "/client-error", headers := [], body := .null } =
      { status := 400, body := .text "Planned 400 error" } ∧
    Trial.route (.ok []) { method := "GET", path := "/server-error", headers := [], body := .null } =
      { status := 500, body := .text "Planned 500 error" } :=
  ⟨((fixed_status_endpoints emptyStore (.ok []) _ rfl).1 rfl).1,
   ((fixed_status_endpoints emptyStore (.ok []) _ rfl).2.1 rfl).2.1,
   ((fixed_status_endpoints emptyStore (.ok []) _ rfl).2.2 rfl).2.2⟩

/-- Claim C6: under the modelled middleware, every request — whatever its
path, method, body or headers — records exactly one request-count metric
sample keyed by its route and exactly one root span whose tag set carries
the final HTTP status code of the response. -/
theorem instrumented_one_metric_one_span (db : StarStore) (req : Request) :
    ∃ sample : MetricSample, ∃ rootSpan : SpanRec,
      (Backend.instrumentedRoute db req).2.2.1 = [sample] ∧
      ("endpoint", req.path) ∈ sample.labels ∧
      (Backend.instrumentedRoute db req).2.2.2 = [rootSpan] ∧
      ("http.status_code", toString (Backend.instrumentedRoute db req).1.status) ∈ rootSpan.tags := by
  refine ⟨_, _, rfl, ?_, rfl, ?_⟩ <;> simp [Backend.instrumentedRoute]

/-- Claim C7: if the upstream fetch of the job listing raises, nothing in
the `/trace` handler catches it, so the request aborts with the 500 error
response and no partial job list is returned. -/
theorem trace_upstream_failure_uncaught (upstream : Except Unit (List Json))
    (req : Request) (hpath : req.path = "/trace") (hmethod : req.method = "GET")
    (hfail : upstream = .error ()) :
    Trial.route upstream req = internalServerError := by
  simp [Trial.route, hpath, hmethod, hfail, Trial.trace_handler]

theorem trace_upstream_failure_uncaught_witness :
    Trial.route (.error ()) { method := "GET", path := "/trace", headers := [], body := .null } =
      internalServerError :=
  trace_upstream_failure_uncaught (.error ()) _ rfl rfl rfl

/-! ## Lemmas about the `/trace` batch loop -/

/-- A successfully extracted item necessarily carried a `company` field:
extraction reads it as one of the nine fields. -/
theorem extractJob_company {item j : Json} (h : Trial.extractJob item = some j) :
    Trial.hasCompanyB item = true := by
  unfold Trial.extractJob at h
  simp only [Option.bind_eq_some] at h
  obtain ⟨descVal, -, descStr, -, company, hc, -⟩ := h
  simp [Trial.hasCompanyB, hc]

/-- Every job object the extraction produces carries all nine fields. -/
theorem extractJob_complete {item j : Json} (h : Trial.extractJob item = some j) :
    Trial.jobComplete j = true := by
  unfold Trial.extractJob at h
  simp only [Option.bind_eq_some, Option.some.injEq] at h
  obtain ⟨dv, -, ds, -, c, -, cu, -, ca, -, hta, -, lo, -, ti, -, ty, -, u, -, hj⟩ := h
  subst hj
  rfl

/-- Whenever the loop terminates normally, its output is the accumulator
followed by exactly the successfully extracted items, in order. -/
theorem traceLoop_ok :
    ∀ (items acc out : List Json),
      Trial.traceLoop acc items = .ok out →
      out = acc ++ items.filterMap Trial.extractJob
  | [], acc, out, h => by
    unfold Trial.traceLoop at h
    injection h with h
    subst h
    simp
  | item :: rest, acc, out, h => by
    unfold Trial.traceLoop at h
    cases hcomp : jsonGet item "company" with
    | none =>
      simp only [hcomp] at h
      exact absurd h (by simp)
    | some c =>
      simp only [hcomp] at h
      cases hx : Trial.extractJob item with
      | some jobs =>
        simp only [hx] at h
        rw [traceLoop_ok rest (acc ++ [jobs]) out h]
        simp [List.filterMap_cons, hx]
      | none =>
        simp only [hx] at h
        rw [traceLoop_ok rest acc out h]
        simp [List.filterMap_cons, hx]

/-- When every item carries a `company` field, the loop cannot abort: it
returns the accumulator extended by the extracted items. -/
theorem traceLoop_all_company :
    ∀ (items acc : List Json),
      (∀ x ∈ items, Trial.hasCompanyB x = true) →
      Trial.traceLoop acc items = .ok (acc ++ items.filterMap Trial.extractJob)
  | [], acc, _ => by simp [Trial.traceLoop]
  | item :: rest, acc, h => by
    have hc := h item (List.mem_cons_self item rest)
    have hrest := fun x hx => h x (List.mem_cons_of_mem item hx)
    unfold Trial.traceLoop
    cases hcomp : jsonGet item "company" with
    | none => simp [Trial.hasCompanyB, hcomp] at hc
    | some c =>
      cases hx : Trial.extractJob item with
      | some jobs =>
        simp only [hcomp, hx]
        rw [traceLoop_all_company rest (acc ++ [jobs]) hrest]
        simp [List.filterMap_cons, hx]
      | none =>
        simp only [hcomp, hx]
        rw [traceLoop_all_company rest acc hrest]
        simp [List.filterMap_cons, hx]

/-- Over a block of items that all extract successfully, the loop keeps
one output per item. -/
theorem length_filterMap_validItem :
    ∀ l : List Json, l.all Trial.validItem = true →
      (l.filterMap Trial.extractJob).length = l.length
  | [], _ => rfl
  | a :: l, h => by
    rw [List.all_cons, Bool.and_eq_true] at h
    obtain ⟨haValid, hl⟩ := h
    unfold Trial.validItem at haValid
    obtain ⟨j, hj⟩ := Option.isSome_iff_exists.mp haValid
    simp [List.filterMap_cons, hj, length_filterMap_validItem l hl]

/-- A well-formed upstream job item: all nine fields present, description
a plain string. -/
def sampleJob : Json :=
  .obj [("description", .str "Senior Python Developer"),
        ("company", .str "Initech"),
        ("company_url", .str "initech.example"),
        ("created_at", .str "2020-03-11"),
        ("how_to_apply", .str "apply online"),
        ("location", .str "Remote"),
        ("title", .str "Python Developer"),
        ("type", .str "Full Time"),
        ("url", .str "jobs.example/1")]

/-- A malformed item that still carries `company`: the failure is raised
inside the `try` block and caught. -/
def incompleteJob : Json := .obj [("company", .str "Initrode")]

/-- A malformed item without `company`: the pre-`try` log line raises on
it and nothing catches the exception. -/
def noCompanyJob : Json := .obj [("description", .str "entry without company")]

/-! ## Claims about the `/trace` handler -/

/-- Claim C3 (counterexample): an upstream listing of two items of which
exactly one is malformed — it lacks the `company` field, so it raises
during per-item processing, at the pre-`try` log line — does not yield a
200 response with the one valid item: the exception escapes the loop and
the whole request aborts with the 500 error response. -/
theorem trace_single_malformed_aborts :
    Trial.validItem sampleJob = true ∧
    Trial.extractJob noCompanyJob = none ∧
    Trial.trace_handler (.ok [sampleJob, noCompanyJob]) = internalServerError :=
  ⟨rfl, rfl, rfl⟩

/-- Claim C3 (amended): if the single malformed item of the upstream
listing still carries a `company` field — so that its failure is raised
inside the per-item `try` block — the handler answers 200 with exactly
the other N−1 valid items, in order; the malformed item contributes
nothing. -/
theorem trace_partial_batch (as bs : List Json) (bad : Json)
    (hva : as.all Trial.validItem = true) (hvb : bs.all Trial.validItem = true)
    (hbc : Trial.hasCompanyB bad = true) (hbad : Trial.extractJob bad = none) :
    Trial.trace_handler (.ok (as ++ bad :: bs)) =
      { status := 200
        body := .json (.arr (as.filterMap Trial.extractJob ++ bs.filterMap Trial.extractJob)) } ∧
    (as.filterMap Trial.extractJob).length = as.length ∧
    (bs.filterMap Trial.extractJob).length = bs.length := by
  have hva' := List.all_eq_true.mp hva
  have hvb' := List.all_eq_true.mp hvb
  have hcompany : ∀ x ∈ as ++ bad :: bs, Trial.hasCompanyB x = true := by
    intro x hx
    rcases List.mem_append.mp hx with hxa | hxb
    · have hv := hva' x hxa
      unfold Trial.validItem at hv
      obtain ⟨j, hj⟩ := Option.isSome_iff_exists.mp hv
      exact extractJob_company hj
    · rcases List.mem_cons.mp hxb with rfl | hxb2
      · exact hbc
      · have hv := hvb' x hxb2
        unfold Trial.validItem at hv
        obtain ⟨j, hj⟩ := Option.isSome_iff_exists.mp hv
        exact extractJob_company hj
  have hloop := traceLoop_all_company (as ++ bad :: bs) [] hcompany
  refine ⟨?_, length_filterMap_validItem as hva, length_filterMap_validItem bs hvb⟩
  unfold Trial.trace_handler
  simp only [hloop, List.nil_append, List.filterMap_append, List.filterMap_cons, hbad]

theorem trace_partial_batch_witness :
    Trial.trace_handler (.ok ([sampleJob] ++ incompleteJob :: [])) =
      { status := 200
        body := .json (.arr ([sampleJob].filterMap Trial.extractJob ++
          ([] : List Json).filterMap Trial.extractJob)) } ∧
    ([sampleJob].filterMap Trial.extractJob).length = [sampleJob].length ∧
    (([] : List Json).filterMap Trial.extractJob).length = ([] : List Json).length :=
  trace_partial_batch [sampleJob] [] incompleteJob rfl rfl rfl rfl

/-- Claim C10: when the `/trace` loop completes, its output is exactly the
per-item extraction results — each item either contributes one complete
record or contributes nothing — and every record in the output carries
all nine fields. -/
theorem trace_item_atomicity (items out : List Json)
    (h : Trial.traceLoop [] items = .ok out) :
    out = items.filterMap Trial.extractJob ∧
    ∀ j ∈ out, Trial.jobComplete j = true := by
  have h1 := traceLoop_ok items [] out h
  rw [List.nil_append] at h1
  refine ⟨h1, ?_⟩
  intro j hj
  rw [h1] at hj
  obtain ⟨item, -, hitem⟩ := List.mem_filterMap.mp hj
  exact extractJob_complete hitem

theorem trace_item_atomicity_witness :
    [sampleJob] = [sampleJob, incompleteJob].filterMap Trial.extractJob ∧
    ∀ j ∈ [sampleJob], Trial.jobComplete j = true :=
  trace_item_atomicity [sampleJob, incompleteJob] [sampleJob] rfl
